import Mathlib

/-!
Verification of the navigation/layout shell in src/src/App.js and the
container runner script appended to it.  Each definition is a shallow
embedding of one function or JSX fragment of the source; theorems settle
the specified properties against these definitions.
-/

/-- One entry of the `navigationItems` array built in `App` via useMemo
(the lazily loaded component reference is opaque and omitted). -/
structure NavItem where
  path : String
  icon : String
  label : String
deriving DecidableEq, Repr

/-- The `navigationItems` registry: the five entries of the useMemo array
in `App`, in source order. -/
def navigationItems : List NavItem :=
  [ { path := "/", icon := "📊", label := "Dashboard" }
  , { path := "/config", icon := "⚙️", label := "Mirror Configuration" }
  , { path := "/operations", icon := "🔄", label := "Mirror Operations" }
  , { path := "/history", icon := "📋", label := "History" }
  , { path := "/settings", icon := "🔧", label := "Settings" } ]

/-- The `isActive` prop computed in `SideMenuContent` for one item:
`location.pathname === item.path` (exact string equality). -/
def isActiveFor (pathname : String) (item : NavItem) : Bool :=
  pathname == item.path

/-- The set of registry items marked active for a given location pathname:
those items whose `isActive` prop is true in `SideMenuContent`. -/
def activeItems (pathname : String) : List NavItem :=
  navigationItems.filter (isActiveFor pathname)

lemma filter_key_length_le_one {α : Type} (f : α → String) (pathname : String) :
    ∀ (l : List α), (l.map f).Nodup →
      (l.filter (fun x => pathname == f x)).length ≤ 1 := by
  intro l
  induction l with
  | nil => intro _; simp
  | cons a t ih =>
    intro hnd
    rw [List.map_cons, List.nodup_cons] at hnd
    by_cases h : pathname == f a
    · have he : pathname = f a := by simpa using h
      have ht : (t.filter (fun x => pathname == f x)) = [] := by
        rw [List.filter_eq_nil_iff]
        intro b hb
        have : f b ≠ f a := fun hc => hnd.1 (hc ▸ List.mem_map_of_mem f hb)
        simp [he]
        exact fun hc => this hc.symm
      simp [List.filter_cons, h, ht]
    · simp only [List.filter_cons, h]
      simpa using ih hnd.2

/-- C1: for a pathname equal to the path of a registry item, exactly that
item is active; for a pathname matching no item path, no item is active;
and for every pathname at most one item is active. -/
theorem activeItems_exact_match (pathname : String) :
    (∀ i ∈ navigationItems, i.path = pathname → activeItems pathname = [i]) ∧
    ((∀ i ∈ navigationItems, i.path ≠ pathname) → activeItems pathname = []) ∧
    (activeItems pathname).length ≤ 1 := by
  refine ⟨?_, ?_, ?_⟩
  · intro i hi hp
    subst hp
    fin_cases hi <;> rfl
  · intro hnone
    rw [activeItems, List.filter_eq_nil_iff]
    intro i hi
    simp [isActiveFor]
    exact fun hc => hnone i hi hc.symm
  · have hnd : (navigationItems.map NavItem.path).Nodup := by decide
    have := filter_key_length_le_one NavItem.path pathname navigationItems hnd
    simpa [activeItems, isActiveFor] using this

/-- Witness for C1 at the concrete location "/config". -/
theorem activeItems_exact_match_w :
    activeItems "/config" =
      [{ path := "/config", icon := "⚙️", label := "Mirror Configuration" }] :=
  (activeItems_exact_match "/config").1
    { path := "/config", icon := "⚙️", label := "Mirror Configuration" }
    (by decide) rfl

/-! ## SideMenuItem event handling (C2) -/

/-- Outcome of dispatching one discrete activation event on a
`SideMenuItem`: how many times the `onClick` callback was invoked and
whether the default browser behaviour was suppressed via preventDefault. -/
structure EventOutcome where
  onActivateCalls : Nat
  defaultPrevented : Bool
deriving DecidableEq, Repr

/-- A freshly dispatched event: no callback run, default not prevented. -/
def freshEvent : EventOutcome :=
  { onActivateCalls := 0, defaultPrevented := false }

/-- `SideMenuItem.handleKeyDown`: on key Enter or key Space it calls
`e.preventDefault()` and then invokes `onClick()` once; any other key is
ignored. -/
def handleKeyDown (key : String) (e : EventOutcome) : EventOutcome :=
  if key == "Enter" || key == " " then
    { e with defaultPrevented := true, onActivateCalls := e.onActivateCalls + 1 }
  else e

/-- The inner `Link` element onClick handler: `(e) => e.preventDefault()`,
suppressing the native anchor navigation and nothing else. -/
def linkClickHandler (e : EventOutcome) : EventOutcome :=
  { e with defaultPrevented := true }

/-- The outer div `onClick={onClick}` handler: invokes the callback once. -/
def divClickHandler (e : EventOutcome) : EventOutcome :=
  { e with onActivateCalls := e.onActivateCalls + 1 }

/-- A pointer click on a `SideMenuItem`: the click lands on the `Link`
(whose handler runs first) and bubbles to the wrapping div (whose handler
runs next); neither handler stops propagation. -/
def dispatchPointerClick : EventOutcome :=
  divClickHandler (linkClickHandler freshEvent)

/-- A keyboard activation on a `SideMenuItem`: only the div onKeyDown
handler runs (a div with role button has no native key activation). -/
def dispatchKey (key : String) : EventOutcome :=
  handleKeyDown key freshEvent

/-- C2: pointer click, Enter and Space each invoke onActivate exactly
once, keyboard activation prevents the default scroll-on-space behaviour,
and the native anchor navigation is suppressed on the click path. -/
theorem sideMenuItem_single_activation :
    dispatchPointerClick = { onActivateCalls := 1, defaultPrevented := true } ∧
    dispatchKey "Enter" = { onActivateCalls := 1, defaultPrevented := true } ∧
    dispatchKey " " = { onActivateCalls := 1, defaultPrevented := true } := by
  refine ⟨rfl, rfl, rfl⟩

/-! ## Shell Container state (C3, C4, C7, C10) -/

/-- The two useState hooks of `App`: `sidebarCollapsed` and
`isMobileMenuOpen`. -/
structure AppState where
  sidebarCollapsed : Bool
  isMobileMenuOpen : Bool
deriving DecidableEq, Repr

/-- `useState(false)` twice: the state a freshly constructed `App` starts
from, independent of any earlier session. -/
def initialAppState : AppState :=
  { sidebarCollapsed := false, isMobileMenuOpen := false }

/-- `toggleSidebar`: `setSidebarCollapsed(prev => !prev)`. -/
def toggleSidebar (s : AppState) : AppState :=
  { s with sidebarCollapsed := !s.sidebarCollapsed }

/-- `toggleMobileMenu`: `setIsMobileMenuOpen(prev => !prev)`. -/
def toggleMobileMenu (s : AppState) : AppState :=
  { s with isMobileMenuOpen := !s.isMobileMenuOpen }

/-- The mount-only effect with empty dependency array:
`setIsMobileMenuOpen(false)`. -/
def closeMobileMenuOnMount (s : AppState) : AppState :=
  { s with isMobileMenuOpen := false }

/-- Mounting the Shell Container: React constructs the state from the
useState initialisers (ignoring whatever state a previous session had)
and then runs the mount effect. -/
def mountShellFrom (_priorSession : AppState) : AppState :=
  closeMobileMenuOnMount initialAppState

/-- The target of a pointer event as seen by `handleClickOutside`.
`element b` is a target that is an Element (attached or already removed
from the document) whose `closest` lookup for a side-menu ancestor
returns an element iff `b`; `nonElement` is a target with no `closest`
method (for example the document node itself). -/
inductive PointerTarget where
  | element (insideSideMenu : Bool)
  | nonElement
deriving DecidableEq, Repr

/-- `event.target.closest` applied with the side-menu selector: returns
whether a matching ancestor exists, or throws a TypeError when the target
has no `closest` method. -/
def targetClosestSideMenu : PointerTarget → Except Unit Bool
  | PointerTarget.element insideSideMenu => Except.ok insideSideMenu
  | PointerTarget.nonElement => Except.error ()

/-- `App.handleClickOutside`: when `isMobileMenuOpen` is true and the
target has no side-menu ancestor, set `isMobileMenuOpen` to false.  The
JS `&&` short-circuits, so `closest` is only evaluated while the menu is
open; an `Except.error` result is the handler throwing. -/
def handleClickOutside (s : AppState) (t : PointerTarget) : Except Unit AppState :=
  if s.isMobileMenuOpen then
    match targetClosestSideMenu t with
    | Except.error e => Except.error e
    | Except.ok insideSideMenu =>
        Except.ok (if !insideSideMenu then { s with isMobileMenuOpen := false } else s)
  else Except.ok s

/-- C3: the mobile-menu machine has exactly the specified transitions.
Toggling flips the state (so Closed goes to Open and Open to Closed on
explicit toggle); a pointer event outside the panel closes an open menu;
a pointer event inside the panel leaves an open menu open; no pointer
event changes a closed menu; and the mount effect closes the menu. -/
theorem mobileMenu_transitions (s : AppState) :
    (toggleMobileMenu s).isMobileMenuOpen = !s.isMobileMenuOpen ∧
    (s.isMobileMenuOpen = true →
      handleClickOutside s (PointerTarget.element false) =
        Except.ok { s with isMobileMenuOpen := false }) ∧
    (s.isMobileMenuOpen = true →
      handleClickOutside s (PointerTarget.element true) = Except.ok s) ∧
    (∀ t, s.isMobileMenuOpen = false → handleClickOutside s t = Except.ok s) ∧
    (closeMobileMenuOnMount s).isMobileMenuOpen = false := by
  refine ⟨rfl, ?_, ?_, ?_, rfl⟩
  · intro h; simp [handleClickOutside, targetClosestSideMenu, h]
  · intro h; simp [handleClickOutside, targetClosestSideMenu, h]
  · intro t h; simp [handleClickOutside, h]

/-- Witness for C3: from the open state, an outside pointer event closes
the menu. -/
theorem mobileMenu_transitions_w :
    handleClickOutside { sidebarCollapsed := false, isMobileMenuOpen := true }
        (PointerTarget.element false) =
      Except.ok { sidebarCollapsed := false, isMobileMenuOpen := false } :=
  (mobileMenu_transitions
    { sidebarCollapsed := false, isMobileMenuOpen := true }).2.1 rfl

/-- C4: immediately after mounting, `isMobileMenuOpen` and
`sidebarCollapsed` are both false, whatever the prior session state was. -/
theorem mount_resets_navigation_state (priorSession : AppState) :
    (mountShellFrom priorSession).isMobileMenuOpen = false ∧
    (mountShellFrom priorSession).sidebarCollapsed = false :=
  ⟨rfl, rfl⟩

/-- C10: the outside-click listener never opens the menu.  While the menu
is closed, every pointer event (inside, outside, or with an unresolvable
target) leaves the whole state unchanged and nothing is thrown. -/
theorem clickOutside_never_opens (s : AppState) (t : PointerTarget)
    (h : s.isMobileMenuOpen = false) :
    handleClickOutside s t = Except.ok s := by
  simp [handleClickOutside, h]

/-- Witness for C10: with the menu closed, even an unresolvable target
leaves the state unchanged. -/
theorem clickOutside_never_opens_w :
    handleClickOutside { sidebarCollapsed := true, isMobileMenuOpen := false }
        PointerTarget.nonElement =
      Except.ok { sidebarCollapsed := true, isMobileMenuOpen := false } :=
  clickOutside_never_opens
    { sidebarCollapsed := true, isMobileMenuOpen := false }
    PointerTarget.nonElement rfl

/-- Counterexample for C7: with the menu open, a pointer event whose
target has no `closest` method makes `handleClickOutside` throw instead
of closing the menu. -/
theorem clickOutside_nonElement_throws :
    handleClickOutside { sidebarCollapsed := false, isMobileMenuOpen := true }
        PointerTarget.nonElement = Except.error () ∧
    handleClickOutside { sidebarCollapsed := false, isMobileMenuOpen := true }
        PointerTarget.nonElement ≠
      Except.ok { sidebarCollapsed := false, isMobileMenuOpen := false } := by
  refine ⟨rfl, ?_⟩
  intro h
  exact Except.noConfusion h

/-- C7 (amended): for element targets, including elements already removed
from the document (whose `closest` lookup finds no side-menu ancestor),
an open menu is closed without throwing; but with the menu open a target
that is not an element makes the listener throw, and with the menu closed
the target is never inspected so nothing is thrown. -/
theorem clickOutside_element_targets (s : AppState) :
    (s.isMobileMenuOpen = true →
      handleClickOutside s (PointerTarget.element false) =
        Except.ok { s with isMobileMenuOpen := false }) ∧
    (s.isMobileMenuOpen = true →
      handleClickOutside s PointerTarget.nonElement = Except.error ()) ∧
    (s.isMobileMenuOpen = false →
      ∀ t, handleClickOutside s t = Except.ok s) := by
  refine ⟨?_, ?_, ?_⟩
  · intro h; simp [handleClickOutside, targetClosestSideMenu, h]
  · intro h; simp [handleClickOutside, targetClosestSideMenu, h]
  · intro h t; simp [handleClickOutside, h]

/-- Witness for the amended C7: an open menu closes on a removed-element
target with no side-menu ancestor. -/
theorem clickOutside_element_targets_w :
    handleClickOutside { sidebarCollapsed := true, isMobileMenuOpen := true }
        (PointerTarget.element false) =
      Except.ok { sidebarCollapsed := true, isMobileMenuOpen := false } :=
  (clickOutside_element_targets
    { sidebarCollapsed := true, isMobileMenuOpen := true }).1 rfl

/-! ## SideMenuItem and panel rendering (C5) -/

/-- The observable rendering of one `SideMenuItem`: whether the label span
is rendered, the aria-label and title attributes (the label when
collapsed, absent otherwise), the aria-current attribute (page when
active), and whether the active marker is applied to the item. -/
structure RenderedItem where
  labelRendered : Bool
  ariaLabel : Option String
  title : Option String
  ariaCurrent : Option String
  markedActive : Bool
deriving DecidableEq, Repr

/-- The JSX of `SideMenuItem` as a function of its props: the label span
is `!isCollapsed && <span>{label}</span>`, aria-label and title are
`isCollapsed ? label : undefined`, aria-current is
`isActive ? page : undefined`, and the active marker comes from
`isActive ? active : empty` in the div attributes. -/
def renderSideMenuItem (label : String) (isActive isCollapsed : Bool) : RenderedItem :=
  { labelRendered := !isCollapsed
  , ariaLabel := if isCollapsed then some label else none
  , title := if isCollapsed then some label else none
  , ariaCurrent := if isActive then some "page" else none
  , markedActive := isActive }

/-- The `aria-expanded={!sidebarCollapsed}` attribute of the sidebar
toggle button in `SideMenuContent`. -/
def sidebarToggleExpanded (sidebarCollapsed : Bool) : Bool :=
  !sidebarCollapsed

/-- `SideMenuContent` rendering the registry: one `SideMenuItem` per
entry, with `isActive` computed from the location and `isCollapsed`
shared by every item. -/
def renderPanel (pathname : String) (sidebarCollapsed : Bool) : List RenderedItem :=
  navigationItems.map
    (fun item => renderSideMenuItem item.label (isActiveFor pathname item) sidebarCollapsed)

/-- C5: toggling collapsed from false to true hides every item label
while keeping it as accessible label and tooltip, flips the toggle
control accessible expanded state to false, and leaves the active marker
of every item exactly as it was. -/
theorem collapse_hides_labels (label : String) (isActive : Bool)
    (pathname : String) (s : AppState) (h : s.sidebarCollapsed = false) :
    (toggleSidebar s).sidebarCollapsed = true ∧
    sidebarToggleExpanded (toggleSidebar s).sidebarCollapsed = false ∧
    (renderSideMenuItem label isActive true).labelRendered = false ∧
    (renderSideMenuItem label isActive true).ariaLabel = some label ∧
    (renderSideMenuItem label isActive true).title = some label ∧
    (renderSideMenuItem label isActive true).markedActive =
      (renderSideMenuItem label isActive false).markedActive ∧
    (renderPanel pathname true).map RenderedItem.markedActive =
      (renderPanel pathname false).map RenderedItem.markedActive := by
  refine ⟨?_, ?_, rfl, rfl, rfl, rfl, rfl⟩
  · simp [toggleSidebar, h]
  · simp [toggleSidebar, sidebarToggleExpanded, h]

/-- Witness for C5 from the expanded initial state. -/
theorem collapse_hides_labels_w :
    sidebarToggleExpanded (toggleSidebar initialAppState).sidebarCollapsed = false :=
  (collapse_hides_labels "Dashboard" true "/" initialAppState rfl).2.1

/-! ## Document-level listener lifecycle (C6) -/

/-- Lifecycle events of the `useEffect` in `App` that installs
`handleClickOutside`: initial mount runs the effect body, a change of the
`isMobileMenuOpen` dependency runs the previous cleanup and then the body
again, and unmount runs the cleanup. -/
inductive EffectEvent where
  | mount
  | depChange
  | unmount
deriving DecidableEq, Repr

/-- One lifecycle step acting on (mounted, number of document click
listeners registered): the effect body is
`document.addEventListener(click, handleClickOutside)` and the returned
cleanup is `document.removeEventListener(click, handleClickOutside)`;
events that cannot occur in React (mounting a mounted component,
updating or unmounting an unmounted one) leave the state alone. -/
def effectStep : Bool × Nat → EffectEvent → Bool × Nat
  | (false, n), EffectEvent.mount => (true, n + 1)
  | (true, n), EffectEvent.depChange => (true, n - 1 + 1)
  | (true, n), EffectEvent.unmount => (false, n - 1)
  | s, _ => s

/-- The listener state after a sequence of lifecycle events, starting
unmounted with no listener registered. -/
def listenersAfter (trace : List EffectEvent) : Bool × Nat :=
  trace.foldl effectStep (false, 0)

lemma effectStep_foldl_inv :
    ∀ (trace : List EffectEvent) (s : Bool × Nat),
      s.2 = (if s.1 then 1 else 0) →
      (trace.foldl effectStep s).2 =
        (if (trace.foldl effectStep s).1 then 1 else 0) := by
  intro trace
  induction trace with
  | nil => intro s h; simpa using h
  | cons e t ih =>
    intro s h
    rw [List.foldl_cons]
    refine ih (effectStep s e) ?_
    obtain ⟨m, n⟩ := s
    cases e <;> cases m <;> simp_all [effectStep]

/-- C6: after every sequence of mount, dependency-change and unmount
events, exactly one document click listener is registered while the shell
is mounted and none while it is not; in particular two mount-unmount
cycles end with no listener registered. -/
theorem listener_registered_iff_mounted :
    (∀ trace : List EffectEvent,
      (listenersAfter trace).2 = (if (listenersAfter trace).1 then 1 else 0)) ∧
    listenersAfter
      [EffectEvent.mount, EffectEvent.unmount, EffectEvent.mount, EffectEvent.unmount] =
      (false, 0) := by
  refine ⟨?_, rfl⟩
  intro trace
  exact effectStep_foldl_inv trace (false, 0) rfl

/-! ## Toast notification surface (C8) -/

/-- The props passed to `ToastContainer` in the JSX of `App` (a bare
attribute such as closeOnClick is the value true). -/
structure ToastContainerProps where
  position : String
  autoClose : Nat
  hideProgressBar : Bool
  newestOnTop : Bool
  closeOnClick : Bool
  rtl : Bool
  pauseOnFocusLoss : Bool
  draggable : Bool
  pauseOnHover : Bool
deriving DecidableEq, Repr

/-- The concrete `ToastContainer` configuration in `App`. -/
def toastContainerProps : ToastContainerProps :=
  { position := "top-right"
  , autoClose := 5000
  , hideProgressBar := false
  , newestOnTop := false
  , closeOnClick := true
  , rtl := false
  , pauseOnFocusLoss := true
  , draggable := true
  , pauseOnHover := true }

/-- One visible notification: milliseconds of countdown elapsed, whether
the pointer hovers it, whether the window lost focus, and whether it has
been dismissed. -/
structure Toast where
  elapsedMs : Nat
  hovered : Bool
  focusLost : Bool
  dismissed : Bool
deriving DecidableEq, Repr

/-- Modelled from the spec: the react-toastify countdown (the library
code is not part of this repository).  One millisecond of wall time
advances the countdown unless the toast is already dismissed or a
configured pause condition (pauseOnHover while hovered, pauseOnFocusLoss
while focus is lost) holds, and the toast auto-dismisses once autoClose
milliseconds have elapsed. -/
def toastTick (cfg : ToastContainerProps) (t : Toast) : Toast :=
  if t.dismissed then t
  else if (cfg.pauseOnHover && t.hovered) || (cfg.pauseOnFocusLoss && t.focusLost) then t
  else
    { t with
      elapsedMs := t.elapsedMs + 1
      , dismissed := decide (cfg.autoClose ≤ t.elapsedMs + 1) }

/-- Modelled from the spec: an explicit user click dismisses the toast
early exactly when closeOnClick is configured. -/
def toastClick (cfg : ToastContainerProps) (t : Toast) : Toast :=
  if cfg.closeOnClick then { t with dismissed := true } else t

/-- Modelled from the spec: the top-to-bottom display order of the
currently posted toasts (given oldest first) is reversed exactly when
newestOnTop is configured. -/
def stackedOrder (cfg : ToastContainerProps) (postedOldestFirst : List String) : List String :=
  if cfg.newestOnTop then postedOldestFirst.reverse else postedOldestFirst

/-- C8: with the configuration of `App`, a click always dismisses a
toast, hovering or focus loss pauses the countdown, an unpaused live
toast counts one millisecond per tick and auto-dismisses exactly when
5000 ms have elapsed, and toasts display oldest on top with newer ones
below. -/
theorem toast_surface_behaviour :
    toastContainerProps.autoClose = 5000 ∧
    (∀ t : Toast, (toastClick toastContainerProps t).dismissed = true) ∧
    (∀ t : Toast, t.hovered = true → toastTick toastContainerProps t = t) ∧
    (∀ t : Toast, t.focusLost = true → toastTick toastContainerProps t = t) ∧
    (∀ t : Toast, t.dismissed = false → t.hovered = false → t.focusLost = false →
      (toastTick toastContainerProps t).elapsedMs = t.elapsedMs + 1 ∧
      ((toastTick toastContainerProps t).dismissed = true ↔ 5000 ≤ t.elapsedMs + 1)) ∧
    (∀ postedOldestFirst : List String,
      stackedOrder toastContainerProps postedOldestFirst = postedOldestFirst) := by
  refine ⟨rfl, ?_, ?_, ?_, ?_, ?_⟩
  · intro t; simp [toastClick, toastContainerProps]
  · intro t h
    by_cases hd : t.dismissed <;> simp [toastTick, toastContainerProps, h, hd]
  · intro t h
    by_cases hd : t.dismissed <;> simp [toastTick, toastContainerProps, h, hd]
  · intro t hd hh hf
    simp [toastTick, toastContainerProps, hd, hh, hf]
  · intro postedOldestFirst
    simp [stackedOrder, toastContainerProps]

/-- Witness for C8: a live unhovered toast at 4999 ms is dismissed by the
next tick. -/
theorem toast_surface_behaviour_w :
    (toastTick toastContainerProps
      { elapsedMs := 4999, hovered := false, focusLost := false, dismissed := false }).dismissed
      = true :=
  ((toast_surface_behaviour.2.2.2.2.1
      { elapsedMs := 4999, hovered := false, focusLost := false, dismissed := false }
      rfl rfl rfl).2).mpr (by decide)

/-! ## Container runner script (C9) -/

/-- Result of a script phase: either the script exited with a code, or it
continues with the detected container engine. -/
inductive Outcome where
  | exited (code : Nat)
  | continues (engine : String)
deriving DecidableEq, Repr

/-- `detect_container_runtime`: use docker when `command -v docker` and
`docker info` both succeed, otherwise podman when `command -v podman` and
`podman info` both succeed, otherwise print an error and `exit 1`. -/
def detect_container_runtime
    (dockerCmd dockerInfo podmanCmd podmanInfo : Bool) : Outcome :=
  if dockerCmd && dockerInfo then Outcome.continues "docker"
  else if podmanCmd && podmanInfo then Outcome.continues "podman"
  else Outcome.exited 1

/-- Whether `$CONTAINER_ENGINE info` succeeds for the detected engine. -/
def engineInfoOk (dockerInfo podmanInfo : Bool) (engine : String) : Bool :=
  if engine == "docker" then dockerInfo else podmanInfo

/-- `check_container_runtime`: run detection, then re-run
`$CONTAINER_ENGINE info` and `exit 1` if it fails. -/
def check_container_runtime
    (dockerCmd dockerInfo podmanCmd podmanInfo : Bool) : Outcome :=
  match detect_container_runtime dockerCmd dockerInfo podmanCmd podmanInfo with
  | Outcome.exited c => Outcome.exited c
  | Outcome.continues engine =>
      if !(engineInfoOk dockerInfo podmanInfo engine) then Outcome.exited 1
      else Outcome.continues engine

/-- Overall result of one script invocation, as far as it is determined
by the argument and engine availability alone: a definite exit code, or
`proceeds` when the script goes on to build/run/log steps whose outcome
depends on further external commands. -/
inductive ScriptResult where
  | exit (code : Nat)
  | proceeds (engine : String)
deriving DecidableEq, Repr

/-- Sequence a phase outcome with the rest of the branch. -/
def andThen (o : Outcome) (k : String → ScriptResult) : ScriptResult :=
  match o with
  | Outcome.exited c => ScriptResult.exit c
  | Outcome.continues engine => k engine

/-- The argument dispatch of the script (the `case "${1:-}"` block):
`--help` and `-h` print usage and `exit 0`; `--build-only` and
`--run-only` run `check_container_runtime` and then build or run;
`--stop` runs detection and then stops and removes the container (each
command guarded by `|| true`) and exits 0; `--logs` runs detection and
then follows logs; `--engine` runs detection, prints the engine and ends
with status 0; every other argument (including none) runs `main`, which
starts with `check_container_runtime` and proceeds to the build/run
steps. -/
def runScript (dockerCmd dockerInfo podmanCmd podmanInfo : Bool)
    (arg : String) : ScriptResult :=
  if arg = "--help" ∨ arg = "-h" then ScriptResult.exit 0
  else if arg = "--build-only" then
    andThen (check_container_runtime dockerCmd dockerInfo podmanCmd podmanInfo)
      (fun engine => ScriptResult.proceeds engine)
  else if arg = "--run-only" then
    andThen (check_container_runtime dockerCmd dockerInfo podmanCmd podmanInfo)
      (fun engine => ScriptResult.proceeds engine)
  else if arg = "--stop" then
    andThen (detect_container_runtime dockerCmd dockerInfo podmanCmd podmanInfo)
      (fun _engine => ScriptResult.exit 0)
  else if arg = "--logs" then
    andThen (detect_container_runtime dockerCmd dockerInfo podmanCmd podmanInfo)
      (fun engine => ScriptResult.proceeds engine)
  else if arg = "--engine" then
    andThen (detect_container_runtime dockerCmd dockerInfo podmanCmd podmanInfo)
      (fun _engine => ScriptResult.exit 0)
  else
    andThen (check_container_runtime dockerCmd dockerInfo podmanCmd podmanInfo)
      (fun engine => ScriptResult.proceeds engine)

/-- C9: whenever neither docker nor podman is available and usable, every
invocation other than `--help`/`-h` exits with status 1; and `--help` and
`-h` exit with status 0 regardless of engine availability. -/
theorem run_script_exit_codes :
    (∀ (dockerCmd dockerInfo podmanCmd podmanInfo : Bool) (arg : String),
      arg ≠ "--help" → arg ≠ "-h" →
      (dockerCmd && dockerInfo) = false → (podmanCmd && podmanInfo) = false →
      runScript dockerCmd dockerInfo podmanCmd podmanInfo arg = ScriptResult.exit 1) ∧
    (∀ dockerCmd dockerInfo podmanCmd podmanInfo : Bool,
      runScript dockerCmd dockerInfo podmanCmd podmanInfo "--help" = ScriptResult.exit 0 ∧
      runScript dockerCmd dockerInfo podmanCmd podmanInfo "-h" = ScriptResult.exit 0) := by
  constructor
  · intro dockerCmd dockerInfo podmanCmd podmanInfo arg h1 h2 hd hp
    have hdet :
        detect_container_runtime dockerCmd dockerInfo podmanCmd podmanInfo =
          Outcome.exited 1 := by
      simp [detect_container_runtime, hd, hp]
    have hchk :
        check_container_runtime dockerCmd dockerInfo podmanCmd podmanInfo =
          Outcome.exited 1 := by
      simp [check_container_runtime, hdet]
    unfold runScript
    rw [if_neg (by tauto)]
    repeat' split
    all_goals simp [andThen, hdet, hchk]
  · intro dockerCmd dockerInfo podmanCmd podmanInfo
    exact ⟨by simp [runScript], by simp [runScript]⟩

/-- Witness for C9: with no engine at all, a plain invocation exits 1 and
an invocation with `--help` exits 0. -/
theorem run_script_exit_codes_w :
    runScript false false false false "" = ScriptResult.exit 1 ∧
    runScript false false false false "--help" = ScriptResult.exit 0 :=
  ⟨run_script_exit_codes.1 false false false false ""
      (by decide) (by decide) rfl rfl,
   (run_script_exit_codes.2 false false false false).1⟩
